import Mathlib

/-!
Verification of the natural-language specification of the Kubernetes
query agent (src/main.py) against a shallow embedding of its code.

Conventions of the embedding:
* Python exceptions are modelled by `Except PyErr`; `PyErr.apiError`
  models `kubernetes.client.exceptions.ApiException` (with its `status`
  and `reason`), `PyErr.valueError` models the `ValueError` the python
  kubernetes client raises when a required `name` argument is `None`,
  and `PyErr.indexError` models `IndexError` from `containers[0]` on an
  empty list.
* Python dicts of strings are association lists (`slookup` is `dict.get`,
  first binding wins); `Option String` models a value that may be `None`.
* Python truthiness of strings/dicts (`None`/empty falsy) is `pyTruthy`
  and `paramsTruthy`; f-string rendering of a possibly-`None` value is
  `optStr`.
* The external collaborators (control plane, fallback LLM, yaml dump)
  are parameters: `KubeApi` holds one field per control-plane method the
  code calls, each returning `Except PyErr`; `Ctx.fb` is the fallback
  synthesizer's answer for a given query string.
* Character-level string operations (`str.lower`, `str.replace`,
  `re.sub`) are modelled over ASCII on `List Char`, matching CPython's
  left-to-right non-overlapping scan for `replace` and the anchored
  pattern semantics of the two regexes in the source.
-/

namespace K8sAgent

/-- Python exceptions relevant to main.py. -/
inductive PyErr where
  | apiError (status : Nat) (reason : String)
  | valueError
  | indexError
deriving DecidableEq

/-- Association-list lookup, modelling `dict.get(key)` (`none` = absent). -/
def slookup {β : Type} : List (String × β) → String → Option β
  | [], _ => none
  | (k, v) :: rest, key => if k = key then some v else slookup rest key

/-- Modelling `d[key] = value` on a dict that may or may not contain `key`. -/
def supdate {β : Type} : List (String × β) → String → β → List (String × β)
  | [], key, v => [(key, v)]
  | (k, w) :: rest, key, v =>
    if k = key then (key, v) :: rest else (k, w) :: supdate rest key v

/-- Python truthiness of an optional string (`None` and `""` are falsy). -/
def pyTruthy : Option String → Bool
  | none => false
  | some s => !s.isEmpty

/-- Python truthiness of an optional dict (`None` and `{}` are falsy). -/
def paramsTruthy {β : Type} : Option (List (String × β)) → Bool
  | none => false
  | some l => !l.isEmpty

/-- Rendering of an optional string inside an f-string (`None` prints as "None"). -/
def optStr : Option String → String
  | none => "None"
  | some s => s

/-- Python `x or y` on optional strings (first truthy operand wins). -/
def pyOr (a b : Option String) : Option String :=
  if pyTruthy a then a else b

/-- Python `.lower()` (ASCII model), as used throughout main.py. -/
def pyLower (s : String) : String := ⟨s.data.map Char.toLower⟩

/-- Action-normalization table of `normalize_action_type` (main.py:107). -/
def action_mapping : List (String × String) :=
  [("count_pods", "count_resources"),
   ("count_deployments", "count_resources"),
   ("count_nodes", "count_resources"),
   ("count_services", "count_resources"),
   ("get_pod_status", "get_status"),
   ("get_deployment_status", "get_status"),
   ("get_service_status", "get_status"),
   ("list_pods", "list_resources"),
   ("list_deployments", "list_resources"),
   ("list_services", "list_resources"),
   ("get_pod_logs", "get_logs"),
   ("describe_pod", "describe_resource"),
   ("describe_deployment", "describe_resource"),
   ("get_pod_details", "describe_resource"),
   ("get_resource_detail", "get_resource_detail")]

/-- Embedding of `normalize_action_type` (main.py:107-125):
`action_mapping.get(action_type, action_type)`. -/
def normalize_action_type (action_type : String) : String :=
  (slookup action_mapping action_type).getD action_type

/-- Resource-type synonym table of `normalize_resource_type` (main.py:129-192). -/
def resource_type_mapping : List (String × String) :=
  [("pods", "pod"), ("pod", "pod"), ("po", "pod"), ("p", "pod"),
   ("deployments", "deployment"), ("deployment", "deployment"),
   ("deploy", "deployment"), ("dep", "deployment"),
   ("services", "service"), ("service", "service"), ("svc", "service"),
   ("nodes", "node"), ("node", "node"), ("no", "node"),
   ("configmaps", "configmap"), ("configmap", "configmap"), ("cm", "configmap"),
   ("secrets", "secret"), ("secret", "secret"), ("sec", "secret"),
   ("namespaces", "namespace"), ("namespace", "namespace"), ("ns", "namespace"),
   ("endpoints", "endpoint"), ("endpoint", "endpoint"), ("ep", "endpoint"),
   ("ingresses", "ingress"), ("ingress", "ingress"), ("ing", "ingress"),
   ("persistentvolumeclaims", "persistentvolumeclaim"),
   ("persistentvolumeclaim", "persistentvolumeclaim"),
   ("pvc", "persistentvolumeclaim"),
   ("persistentvolumes", "persistentvolume"),
   ("persistentvolume", "persistentvolume"), ("pv", "persistentvolume"),
   ("replicasets", "replicaset"), ("replicaset", "replicaset"), ("rs", "replicaset"),
   ("statefulsets", "statefulset"), ("statefulset", "statefulset"),
   ("sts", "statefulset"),
   ("daemonsets", "daemonset"), ("daemonset", "daemonset"), ("ds", "daemonset"),
   ("jobs", "job"), ("job", "job"),
   ("cronjobs", "cronjob"), ("cronjob", "cronjob"), ("cj", "cronjob"),
   ("roles", "role"), ("role", "role"),
   ("rolebindings", "rolebinding"), ("rolebinding", "rolebinding"),
   ("rb", "rolebinding"),
   ("clusterroles", "clusterrole"), ("clusterrole", "clusterrole"),
   ("cr", "clusterrole"),
   ("clusterrolebindings", "clusterrolebinding"),
   ("clusterrolebinding", "clusterrolebinding"), ("crb", "clusterrolebinding"),
   ("registry", "deployment"),
   ("persistent volume", "persistentvolume")]

/-- Embedding of `normalize_resource_type` (main.py:128-193):
`resource_type_mapping.get(resource_type.lower(), resource_type.lower())`. -/
def normalize_resource_type (resource_type : String) : String :=
  (slookup resource_type_mapping (pyLower resource_type)).getD (pyLower resource_type)

/-- Fuel-indexed scan behind `pyReplace` (structural recursion on the fuel
so that the kernel can evaluate it; the string length bounds the scan). -/
def pyReplaceGo (p : List Char) : Nat → List Char → List Char
  | _, [] => []
  | 0, s => s
  | fuel + 1, c :: cs =>
    if p.isPrefixOf (c :: cs) then pyReplaceGo p fuel (cs.drop (p.length - 1))
    else c :: pyReplaceGo p fuel cs

/-- CPython `str.replace(old, "")`: one left-to-right scan over the original
string, removing each non-overlapping occurrence of `p` and resuming the
scan after the removed occurrence. -/
def pyReplace (p s : List Char) : List Char := pyReplaceGo p s.length s

/-- Is the character in `[a-z0-9]` (the regexes in main.py use this class). -/
def isLowerAlnum (c : Char) : Bool :=
  (97 ≤ c.toNat && c.toNat ≤ 122) || (48 ≤ c.toNat && c.toNat ≤ 57)

/-- Python `str.strip()` whitespace predicate (ASCII). -/
def isPySpace (c : Char) : Bool :=
  c = ' ' || c = '\t' || c = '\n' || c = '\r' || c = '\x0b' || c = '\x0c'

/-- Python `str.strip()` on a character list. -/
def pyStrip (s : List Char) : List Char :=
  ((s.dropWhile isPySpace).reverse.dropWhile isPySpace).reverse

/-- Embedding of `normalize_resource_name` (main.py:196-202): lower-case,
remove " svc", " service", " pod", " deployment" in that order, replace
spaces with hyphens, delete every character outside `[a-z0-9-]`, strip. -/
def normalize_resource_name (resource_name : String) : String :=
  let r := resource_name.data.map Char.toLower
  let r := pyReplace " svc".data r
  let r := pyReplace " service".data r
  let r := pyReplace " pod".data r
  let r := pyReplace " deployment".data r
  let r := r.map (fun c => if c = ' ' then '-' else c)
  let r := r.filter (fun c => isLowerAlnum c || c = '-')
  ⟨pyStrip r⟩

/-- Character-list core of `simplify_name`: `re.sub(r'-[a-z0-9]{9,}$', '', name)`
deletes the leftmost occurrence of a hyphen followed by nine or more
`[a-z0-9]` characters running to the end of the string. -/
def stripHashChars : List Char → List Char
  | [] => []
  | c :: cs =>
    if c = '-' && 9 ≤ cs.length && cs.all isLowerAlnum then []
    else c :: stripHashChars cs

/-- Embedding of `simplify_name` (main.py:512-514). -/
def simplify_name (name : String) : String := ⟨stripHashChars name.data⟩

/-- An environment-variable entry of a container (`env.name`, `env.value`). -/
structure EnvVar where
  name : String
  value : Option String
deriving DecidableEq

/-- A volume mount of a container. -/
structure VolumeMount where
  mount_path : String
deriving DecidableEq

/-- The `http_get` part of a readiness probe. -/
structure HttpGet where
  path : String
deriving DecidableEq

/-- A readiness probe (only the field main.py reads). -/
structure Probe where
  http_get : Option HttpGet
deriving DecidableEq

/-- A container port entry. -/
structure ContainerPort where
  container_port : Nat
deriving DecidableEq

/-- A container spec: exactly the fields main.py reads. Fields that the
python client reports as `None` when unset are `Option`s. -/
structure Container where
  env : Option (List EnvVar)
  volume_mounts : Option (List VolumeMount)
  readiness_probe : Option Probe
  ports : Option (List ContainerPort)
deriving DecidableEq

/-- A pod spec (`spec.containers`). -/
structure PodSpec where
  containers : List Container
deriving DecidableEq

/-- A pod status (`status.phase`). -/
structure PodStatus where
  phase : String
deriving DecidableEq

/-- A pod object as read from the control plane. -/
structure Pod where
  metadata_name : String
  status : PodStatus
  spec : PodSpec
deriving DecidableEq

/-- A deployment status condition (`conditions[i].type`). -/
structure DeploymentCondition where
  type : String
deriving DecidableEq

/-- A deployment status (`status.conditions`, `None` when unreported). -/
structure DeploymentStatus where
  conditions : Option (List DeploymentCondition)
deriving DecidableEq

/-- The pod template of a deployment (`spec.template.spec`). -/
structure PodTemplate where
  spec : PodSpec
deriving DecidableEq

/-- A deployment spec (`spec.template`). -/
structure DeploymentSpec where
  template : PodTemplate
deriving DecidableEq

/-- A deployment object. -/
structure Deployment where
  metadata_name : String
  status : DeploymentStatus
  spec : DeploymentSpec
deriving DecidableEq

/-- A service port entry (`ports[i].port`). -/
structure ServicePort where
  port : Nat
deriving DecidableEq

/-- A service spec (`spec.type`, `spec.ports`). -/
structure ServiceSpec where
  type : String
  ports : Option (List ServicePort)
deriving DecidableEq

/-- A service object. -/
structure Service where
  metadata_name : String
  spec : ServiceSpec
deriving DecidableEq

/-- A persistent volume; `spec` stands for the printed form of `pv.spec`
as rendered by the f-string in main.py:443. -/
structure PersistentVolume where
  spec : String
deriving DecidableEq

/-- The control-plane surface main.py calls. Each field is one method of
the process-wide `core_v1_api`/`apps_v1_api` client handles; a call
either returns data or raises (`Except PyErr`). `read_namespaced_*` and
`read_persistent_volume` take the `name` argument as an `Option` because
the code may pass `None` through, which the python client rejects with
`ValueError`; a faithful instantiation therefore returns
`.error .valueError` on `none`. Namespaces and nodes are carried by
name only (`metadata.name` is all the code reads from them). -/
structure KubeApi where
  list_namespace : Except PyErr (List String)
  list_pod_for_all_namespaces : Except PyErr (List Pod)
  list_namespaced_pod : String → Except PyErr (List Pod)
  list_deployment_for_all_namespaces : Except PyErr (List Deployment)
  list_namespaced_deployment : String → Except PyErr (List Deployment)
  list_service_for_all_namespaces : Except PyErr (List Service)
  list_namespaced_service : String → Except PyErr (List Service)
  list_node : Except PyErr (List String)
  read_namespaced_pod : Option String → String → Except PyErr Pod
  read_namespaced_deployment : Option String → String → Except PyErr Deployment
  read_namespaced_service : Option String → String → Except PyErr Service
  read_namespaced_pod_log : Option String → Option String → Except PyErr String
  read_persistent_volume : Option String → Except PyErr PersistentVolume

/-- The request context: the control-plane client handles plus the two
external pure collaborators (the fallback-synthesizer answer for a given
query, modelling the whole LLM-propose/exec/format path of
`handle_unknown_action`'s try block, and `yaml.safe_dump` per type). -/
structure Ctx where
  api : KubeApi
  fb : String → String
  dump_pod : Pod → String
  dump_deployment : Deployment → String
  dump_service : Service → String

/-- A parameters dict. -/
abbrev Params := List (String × String)

/-- The namespace-iteration loop of `find_resource_in_all_namespaces`
(main.py:520-530): try the lookup in each namespace in listing order;
an `ApiException` (whatever its status — the code's `if e.status != 404`
only controls logging, both branches fall through to the next iteration)
is swallowed and iteration continues; any other exception propagates;
exhaustion yields `(None, None)`. -/
def find_loop {α : Type} (api_method : Option String → String → Except PyErr α) :
    List String → Option String → Except PyErr (Option α × Option String)
  | [], _ => .ok (none, none)
  | ns :: rest, resource_name =>
    match api_method resource_name ns with
    | .ok r => .ok (some r, some ns)
    | .error (.apiError _ _) => find_loop api_method rest resource_name
    | .error e => .error e

/-- Embedding of `find_resource_in_all_namespaces` (main.py:517-530):
list all namespaces, then run the per-namespace lookup loop. -/
def find_resource_in_all_namespaces {α : Type} (api : KubeApi)
    (api_method : Option String → String → Except PyErr α)
    (resource_name : Option String) : Except PyErr (Option α × Option String) := do
  let namespaces ← api.list_namespace
  find_loop api_method namespaces resource_name

/-- Embedding of `handle_count_resources` (main.py:252-270). -/
def handle_count_resources (api : KubeApi) (params : Params) : Except PyErr String :=
  let resource_type := slookup params "resource_type"
  if resource_type = some "pod" then do
    let pods ← api.list_pod_for_all_namespaces
    pure (Nat.repr pods.length)
  else if resource_type = some "deployment" then do
    let deployments ← api.list_deployment_for_all_namespaces
    pure (Nat.repr deployments.length)
  else if resource_type = some "node" then do
    let nodes ← api.list_node
    pure (Nat.repr nodes.length)
  else if resource_type = some "service" then do
    let services ← api.list_service_for_all_namespaces
    pure (Nat.repr services.length)
  else
    pure ("Resource type '" ++ optStr resource_type ++ "' is not supported for counting.")

/-- Embedding of `handle_get_status` (main.py:272-301). -/
def handle_get_status (api : KubeApi) (params : Params) : Except PyErr String :=
  let resource_type := slookup params "resource_type"
  let resource_name := slookup params "resource_name"
  if resource_type = some "pod" then do
    let (pod, ns) ← find_resource_in_all_namespaces api api.read_namespaced_pod resource_name
    match pod with
    | some pod =>
      pure ("The status of pod '" ++ optStr resource_name ++ "' in namespace '" ++
        optStr ns ++ "' is '" ++ pod.status.phase ++ "'.")
    | none => pure ("Pod '" ++ optStr resource_name ++ "' not found in any namespace.")
  else if resource_type = some "deployment" then do
    let (deployment, ns) ←
      find_resource_in_all_namespaces api api.read_namespaced_deployment resource_name
    match deployment with
    | some deployment =>
      let status := match deployment.status.conditions with
        | some conditions =>
          match conditions.getLast? with
          | some c => c.type
          | none => "Unknown"
        | none => "Unknown"
      pure ("The status of deployment '" ++ optStr resource_name ++ "' in namespace '" ++
        optStr ns ++ "' is '" ++ status ++ "'.")
    | none => pure ("Deployment '" ++ optStr resource_name ++ "' not found in any namespace.")
  else if resource_type = some "service" then do
    let (service, ns) ←
      find_resource_in_all_namespaces api api.read_namespaced_service resource_name
    match service with
    | some service =>
      pure ("The status of service '" ++ optStr resource_name ++ "' in namespace '" ++
        optStr ns ++ "' is '" ++ service.spec.type ++ "'.")
    | none => pure ("Service '" ++ optStr resource_name ++ "' not found in any namespace.")
  else
    pure ("Resource type '" ++ optStr resource_type ++
      "' is not supported for status retrieval.")

/-- Embedding of `handle_list_resources` (main.py:303-331). -/
def handle_list_resources (api : KubeApi) (params : Params) : Except PyErr String :=
  let resource_type := slookup params "resource_type"
  let nsParam := slookup params "namespace"
  if resource_type = some "pod" then do
    let pods ← match nsParam with
      | some ns => if ns.isEmpty then api.list_pod_for_all_namespaces
                   else api.list_namespaced_pod ns
      | none => api.list_pod_for_all_namespaces
    pure (String.intercalate ", " (pods.map (fun p => simplify_name p.metadata_name)))
  else if resource_type = some "deployment" then do
    let deployments ← match nsParam with
      | some ns => if ns.isEmpty then api.list_deployment_for_all_namespaces
                   else api.list_namespaced_deployment ns
      | none => api.list_deployment_for_all_namespaces
    pure (String.intercalate ", "
      (deployments.map (fun d => simplify_name d.metadata_name)))
  else if resource_type = some "service" then do
    let services ← match nsParam with
      | some ns => if ns.isEmpty then api.list_service_for_all_namespaces
                   else api.list_namespaced_service ns
      | none => api.list_service_for_all_namespaces
    pure (String.intercalate ", "
      (services.map (fun s => simplify_name s.metadata_name)))
  else if resource_type = some "namespace" then do
    let namespaces ← api.list_namespace
    pure (String.intercalate ", " namespaces)
  else
    pure ("Resource type '" ++ optStr resource_type ++ "' is not supported for listing.")

/-- Embedding of `handle_get_logs` (main.py:333-344). -/
def handle_get_logs (api : KubeApi) (params : Params) : Except PyErr String :=
  let pod_name := slookup params "resource_name"
  if !pyTruthy pod_name then .ok "Pod name is required to get logs."
  else do
    let (pod, ns) ← find_resource_in_all_namespaces api api.read_namespaced_pod pod_name
    match pod with
    | none => pure ("Pod '" ++ optStr pod_name ++ "' not found in any namespace.")
    | some _ => api.read_namespaced_pod_log pod_name ns

/-- Embedding of `handle_describe_resource` (main.py:346-369). -/
def handle_describe_resource (ctx : Ctx) (params : Params) : Except PyErr String :=
  let resource_type := slookup params "resource_type"
  let resource_name := slookup params "resource_name"
  if resource_type = some "pod" then do
    let (pod, _) ←
      find_resource_in_all_namespaces ctx.api ctx.api.read_namespaced_pod resource_name
    match pod with
    | some pod => pure (ctx.dump_pod pod)
    | none => pure ("Pod '" ++ optStr resource_name ++ "' not found in any namespace.")
  else if resource_type = some "deployment" then do
    let (deployment, _) ← find_resource_in_all_namespaces ctx.api
      ctx.api.read_namespaced_deployment resource_name
    match deployment with
    | some deployment => pure (ctx.dump_deployment deployment)
    | none =>
      pure ("Deployment '" ++ optStr resource_name ++ "' not found in any namespace.")
  else if resource_type = some "service" then do
    let (service, _) ← find_resource_in_all_namespaces ctx.api
      ctx.api.read_namespaced_service resource_name
    match service with
    | some service => pure (ctx.dump_service service)
    | none => pure ("Service '" ++ optStr resource_name ++ "' not found in any namespace.")
  else
    pure ("Description not supported for resource type '" ++ optStr resource_type ++ "'.")

/-- Python list indexing `l[0]`: raises `IndexError` on an empty list. -/
def pyGet0 {α : Type} : List α → Except PyErr α
  | [] => .error .indexError
  | x :: _ => .ok x

/-- The try-block body of `handle_get_resource_detail` (main.py:381-447),
after the two required-field checks. `variable_name` is the value of
`params.get("variable_name") or params.get("specific_detail")`. -/
def get_resource_detail_body (ctx : Ctx)
    (resource_type resource_name detail variable_name : Option String) :
    Except PyErr String :=
  if resource_type = some "pod" then do
    let (pod, _) ←
      find_resource_in_all_namespaces ctx.api ctx.api.read_namespaced_pod resource_name
    match pod with
    | none => pure ("Pod '" ++ optStr resource_name ++ "' not found in any namespace.")
    | some pod =>
      if detail = some "environment_variable" ∧ pyTruthy variable_name then do
        let c0 ← pyGet0 pod.spec.containers
        let env_vars := c0.env.getD []
        match env_vars.find? (fun e => some e.name = variable_name) with
        | some env =>
          pure ("The value of the environment variable '" ++ optStr variable_name ++
            "' is '" ++ optStr env.value ++ "'.")
        | none =>
          pure ("Environment variable '" ++ optStr variable_name ++
            "' not found in pod '" ++ optStr resource_name ++ "'.")
      else if detail = some "mount_path" then do
        let c0 ← pyGet0 pod.spec.containers
        let volume_mounts := c0.volume_mounts.getD []
        pure ("Mount paths for pod '" ++ optStr resource_name ++ "': " ++
          String.intercalate ", " (volume_mounts.map (fun vm => vm.mount_path)))
      else if detail = some "readiness_probe_path" then do
        let c0 ← pyGet0 pod.spec.containers
        match c0.readiness_probe with
        | some probe =>
          match probe.http_get with
          | some hg =>
            pure ("The readiness probe path for pod '" ++ optStr resource_name ++
              "' is '" ++ hg.path ++ "'.")
          | none =>
            pure ("No readiness probe path found for pod '" ++ optStr resource_name ++ "'.")
        | none =>
          pure ("No readiness probe path found for pod '" ++ optStr resource_name ++ "'.")
      else if detail = some "container_port" then do
        let c0 ← pyGet0 pod.spec.containers
        let ports := c0.ports.getD []
        pure ("Container ports for pod '" ++ optStr resource_name ++ "': " ++
          String.intercalate ", " (ports.map (fun p => Nat.repr p.container_port)))
      else
        pure ("Detail '" ++ optStr detail ++ "' is not supported for resource type '" ++
          optStr resource_type ++ "'.")
  else if resource_type = some "deployment" then do
    let (deployment, _) ← find_resource_in_all_namespaces ctx.api
      ctx.api.read_namespaced_deployment resource_name
    match deployment with
    | none =>
      pure ("Deployment '" ++ optStr resource_name ++ "' not found in any namespace.")
    | some deployment =>
      if detail = some "environment_variable" ∧ pyTruthy variable_name then do
        let c0 ← pyGet0 deployment.spec.template.spec.containers
        let env_vars := c0.env.getD []
        match env_vars.find? (fun e => some e.name = variable_name) with
        | some env =>
          pure ("The value of the environment variable '" ++ optStr variable_name ++
            "' is '" ++ optStr env.value ++ "'.")
        | none =>
          pure ("Environment variable '" ++ optStr variable_name ++
            "' not found in deployment '" ++ optStr resource_name ++ "'.")
      else if detail = some "mount_path" then do
        let c0 ← pyGet0 deployment.spec.template.spec.containers
        let volume_mounts := c0.volume_mounts.getD []
        pure ("Mount paths for deployment '" ++ optStr resource_name ++ "': " ++
          String.intercalate ", " (volume_mounts.map (fun vm => vm.mount_path)))
      else
        pure ("Detail '" ++ optStr detail ++ "' is not supported for resource type '" ++
          optStr resource_type ++ "'.")
  else if resource_type = some "service" then do
    let (service, ns) ← find_resource_in_all_namespaces ctx.api
      ctx.api.read_namespaced_service resource_name
    match service with
    | none => pure ("Service '" ++ optStr resource_name ++ "' not found in any namespace.")
    | some service =>
      if detail = some "port" then
        let ports := service.spec.ports.getD []
        pure ("Ports for service '" ++ optStr resource_name ++ "': " ++
          String.intercalate ", " (ports.map (fun p => Nat.repr p.port)))
      else if detail = some "namespace" then
        pure ("The service '" ++ optStr resource_name ++ "' is deployed in the '" ++
          optStr ns ++ "' namespace.")
      else
        pure ("Detail '" ++ optStr detail ++ "' is not supported for resource type '" ++
          optStr resource_type ++ "'.")
  else if resource_type = some "persistentvolume" then do
    let pv ← ctx.api.read_persistent_volume resource_name
    if detail = some "mount_path" then
      pure ("PersistentVolume '" ++ optStr resource_name ++ "' details: " ++ pv.spec)
    else
      pure ("Detail '" ++ optStr detail ++ "' is not supported for resource type '" ++
        optStr resource_type ++ "'.")
  else
    pure ("Resource type '" ++ optStr resource_type ++
      "' is not supported for getting resource details.")

/-- Embedding of `handle_get_resource_detail` (main.py:371-450): the two
required-field checks run before the try block; the try block catches
only `ApiException` (rendering its `reason`); every other exception
propagates to the dispatcher boundary. -/
def handle_get_resource_detail (ctx : Ctx) (params : Params) : Except PyErr String :=
  let resource_type := slookup params "resource_type"
  let resource_name := slookup params "resource_name"
  let detail := slookup params "detail"
  let variable_name :=
    pyOr (slookup params "variable_name") (slookup params "specific_detail")
  if !pyTruthy resource_name || !pyTruthy detail then
    .ok "Resource name and detail are required for getting resource details."
  else
    match get_resource_detail_body ctx resource_type resource_name detail variable_name with
    | .error (.apiError _ reason) =>
      .ok ("An error occurred while retrieving details: " ++ reason)
    | r => r

/-- Embedding of `handle_unknown_action` (main.py:452-488): everything
after reading `params.get("query", "Unknown query")` — the LLM call, the
restricted snippet execution and `format_response`, with every failure
caught and rendered as the generic sentence — is the external
collaborator `ctx.fb`, a total function of the query string. -/
def handle_unknown_action (ctx : Ctx) (params : Params) : String :=
  ctx.fb ((slookup params "query").getD "Unknown query")

/-- The raw intent dict produced by `interpret_query`: the keys
`perform_kubernetes_action` reads from it (`action`, `parameters`,
`query`), each possibly absent. -/
structure RawIntent where
  action : Option String
  parameters : Option Params
  query : Option String
deriving DecidableEq

/-- The `action_handlers` dict of `perform_kubernetes_action` (main.py:224-232). -/
def action_handlers (ctx : Ctx) : List (String × (Params → Except PyErr String)) :=
  [("count_resources", handle_count_resources ctx.api),
   ("get_status", handle_get_status ctx.api),
   ("list_resources", handle_list_resources ctx.api),
   ("get_logs", handle_get_logs ctx.api),
   ("describe_resource", handle_describe_resource ctx),
   ("get_resource_detail", handle_get_resource_detail ctx),
   ("unknown", fun ps => .ok (handle_unknown_action ctx ps))]

/-- The try-block body of `perform_kubernetes_action` (main.py:206-241):
short-circuit to `handle_unknown_action` when the raw action is
"unknown" or the parameters are absent/falsy; otherwise normalize the
action and the `resource_type`/`resource_name` parameters, look the
action up in `action_handlers` and run the handler, or report that the
action was not understood when no handler matches. -/
def perform_body (ctx : Ctx) (a : RawIntent) : Except PyErr String :=
  if a.action = some "unknown" ∨ paramsTruthy a.parameters = false then
    let user_query := a.query.getD "Unknown query"
    .ok (handle_unknown_action ctx [("query", user_query)])
  else
    let action_type := a.action.map normalize_action_type
    let parameters := a.parameters.getD []
    let parameters := match slookup parameters "resource_type" with
      | some rt => supdate parameters "resource_type" (normalize_resource_type rt)
      | none => parameters
    let parameters := match slookup parameters "resource_name" with
      | some rn => supdate parameters "resource_name" (normalize_resource_name rn)
      | none => parameters
    let handler := match action_type with
      | none => none
      | some k => slookup (action_handlers ctx) k
    match handler with
    | none => .ok "I did not understand the action required."
    | some h => h parameters

/-- Embedding of `perform_kubernetes_action` (main.py:205-249): run the
try-block body; an `ApiException` and any other exception are each
downgraded to their fixed explanatory sentence. -/
def perform_kubernetes_action (ctx : Ctx) (a : RawIntent) : String :=
  match perform_body ctx a with
  | .ok answer => answer
  | .error (.apiError _ _) => "An error occurred while communicating with the Kubernetes API."
  | .error _ => "An error occurred while performing the Kubernetes action."

/-- The core pipeline of the route handler (main.py:53-56):
`perform_kubernetes_action(interpret_query(query))`, with the query
interpreter as an external collaborator producing a raw intent. -/
def query_pipeline (ctx : Ctx) (interp : String → RawIntent) (q : String) : String :=
  perform_kubernetes_action ctx (interp q)

/-! Helper lemmas about the string primitives. -/

/-- Does `p` occur as a contiguous substring of `s`? -/
def containsSub (p : List Char) : List Char → Bool
  | [] => p.isEmpty
  | c :: cs => p.isPrefixOf (c :: cs) || containsSub p cs

theorem pyReplace_nil (p : List Char) : pyReplace p [] = [] := rfl

/-- The fuel is irrelevant as soon as it bounds the string length. -/
theorem pyReplaceGo_eq (p : List Char) :
    ∀ (fuel : Nat) (s : List Char), s.length ≤ fuel →
      pyReplaceGo p fuel s = pyReplace p s := by
  intro fuel
  induction fuel using Nat.strong_induction_on with
  | _ fuel ih =>
    intro s hs
    match fuel, s with
    | g, [] => cases g <;> rfl
    | 0, c :: cs => simp at hs
    | f + 1, c :: cs =>
      have hcs : cs.length ≤ f := by simpa using hs
      have hdrop : (cs.drop (p.length - 1)).length ≤ cs.length := by simp
      have hR : pyReplace p (c :: cs) =
          if p.isPrefixOf (c :: cs) then pyReplaceGo p cs.length (cs.drop (p.length - 1))
          else c :: pyReplaceGo p cs.length cs := rfl
      rw [hR]
      show (if p.isPrefixOf (c :: cs) then pyReplaceGo p f (cs.drop (p.length - 1))
        else c :: pyReplaceGo p f cs) = _
      by_cases hm : p.isPrefixOf (c :: cs) = true
      · rw [if_pos hm, if_pos hm, ih f (by omega) _ (le_trans hdrop hcs),
          ih cs.length (by omega) _ hdrop]
      · rw [if_neg hm, if_neg hm, ih f (by omega) cs hcs,
          ih cs.length (by omega) cs (le_refl _)]

theorem pyReplace_cons (p : List Char) (c : Char) (cs : List Char) :
    pyReplace p (c :: cs) =
      if p.isPrefixOf (c :: cs) then pyReplace p (cs.drop (p.length - 1))
      else c :: pyReplace p cs := by
  show (if p.isPrefixOf (c :: cs) then pyReplaceGo p cs.length (cs.drop (p.length - 1))
    else c :: pyReplaceGo p cs.length cs) = _
  by_cases hm : p.isPrefixOf (c :: cs) = true
  · rw [if_pos hm, if_pos hm, pyReplaceGo_eq p cs.length _ (by simp)]
  · rw [if_neg hm, if_neg hm, pyReplaceGo_eq p cs.length cs (le_refl _)]

theorem pyReplace_of_not_containsSub (p : List Char) :
    ∀ s : List Char, containsSub p s = false → pyReplace p s = s := by
  intro s
  induction s with
  | nil => intro _; exact pyReplace_nil p
  | cons c cs ih =>
    intro h
    simp only [containsSub, Bool.or_eq_false_iff] at h
    rw [pyReplace_cons, if_neg (by simp [h.1]), ih h.2]

theorem isPrefixOf_append_self (p b : List Char) : p.isPrefixOf (p ++ b) = true := by
  induction p with
  | nil => simp
  | cons q qs ih => simp [List.isPrefixOf_cons₂, ih]

/-- One scan step over a marked occurrence: if no match of `p` starts
inside `a`, the scan passes `a` through, removes the marked `p`, and
resumes on `b` — whatever `b` still contains. -/
theorem pyReplace_step (p b : List Char) (hp : p ≠ []) :
    ∀ a : List Char,
      (∀ i, i < a.length → p.isPrefixOf ((a.drop i) ++ p ++ b) = false) →
      pyReplace p (a ++ p ++ b) = a ++ pyReplace p b := by
  intro a
  induction a with
  | nil =>
    intro _
    obtain ⟨q, qs, rfl⟩ : ∃ q qs, p = q :: qs := by
      cases p with
      | nil => exact absurd rfl hp
      | cons q qs => exact ⟨q, qs, rfl⟩
    simp only [List.nil_append, List.cons_append]
    rw [pyReplace_cons]
    rw [if_pos (by
      have := isPrefixOf_append_self (q :: qs) b
      simp only [List.cons_append] at this
      exact this)]
    simp only [List.length_cons, Nat.add_sub_cancel]
    rw [List.drop_left]
  | cons x a' ih =>
    intro h
    have h0 := h 0 (by simp)
    simp only [List.drop_zero] at h0
    have h0' : p.isPrefixOf (x :: (a' ++ p ++ b)) = false := by
      simp only [List.cons_append] at h0
      exact h0
    show pyReplace p (x :: (a' ++ p ++ b)) = x :: (a' ++ pyReplace p b)
    rw [pyReplace_cons, if_neg (by rw [h0']; simp)]
    congr 1
    exact ih (fun i hi => by
      have hh := h (i + 1) (by simp only [List.length_cons]; omega)
      simpa using hh)

theorem char_toNat_ofNat (n : Nat) (h : n.isValidChar) : (Char.ofNat n).toNat = n := by
  unfold Char.ofNat
  rw [dif_pos h]
  rfl

theorem char_toLower_idem (c : Char) : Char.toLower (Char.toLower c) = Char.toLower c := by
  unfold Char.toLower
  by_cases h : c.toNat ≥ 65 ∧ c.toNat ≤ 90
  · rw [if_pos h]
    have hv : Nat.isValidChar (c.toNat + 32) := Or.inl (by omega)
    have ht : (Char.ofNat (c.toNat + 32)).toNat = c.toNat + 32 := char_toNat_ofNat _ hv
    rw [if_neg (by rw [ht]; omega)]
  · rw [if_neg h, if_neg h]

theorem pyLower_idem (s : String) : pyLower (pyLower s) = pyLower s := by
  simp [pyLower, List.map_map, Function.comp_def, char_toLower_idem]

/-- Membership comes out of a successful association-list lookup. -/
theorem slookup_mem {β : Type} :
    ∀ (l : List (String × β)) (k : String) (v : β),
      slookup l k = some v → (k, v) ∈ l := by
  intro l
  induction l with
  | nil => intro k v h; simp [slookup] at h
  | cons kv rest ih =>
    intro k v h
    obtain ⟨k', v'⟩ := kv
    rw [slookup] at h
    by_cases hk : k' = k
    · rw [if_pos hk] at h
      simp only [Option.some.injEq] at h
      subst hk
      subst h
      exact List.mem_cons_self _ _
    · rw [if_neg hk] at h
      exact List.mem_cons_of_mem _ (ih k v h)

/-- Every canonical value of the resource-type table is lowercase-stable
and is itself a key that maps to itself. -/
theorem resource_type_values_fixed :
    ∀ kv ∈ resource_type_mapping,
      pyLower kv.2 = kv.2 ∧ slookup resource_type_mapping kv.2 = some kv.2 := by
  decide

/-- No entry of the action table maps to "unknown". -/
theorem action_values_ne_unknown :
    ∀ kv ∈ action_mapping, kv.2 ≠ "unknown" := by
  decide

/-! Claim theorems. -/

/-- Claim C10: resource-type normalization is idempotent — every canonical
kind produced by the table maps to itself, and unmapped inputs pass
through lower-cased, a fixed point of the function. -/
theorem C10_normalize_resource_type_idempotent (s : String) :
    normalize_resource_type (normalize_resource_type s) = normalize_resource_type s := by
  unfold normalize_resource_type
  cases hlk : slookup resource_type_mapping (pyLower s) with
  | none =>
    simp only [hlk, Option.getD_none]
    rw [pyLower_idem, hlk]
    rfl
  | some v =>
    simp only [hlk, Option.getD_some]
    have hv := resource_type_values_fixed (pyLower s, v) (slookup_mem _ _ _ hlk)
    rw [show pyLower v = v from hv.1, hv.2]
    rfl

/-- A string assembled from `chunks` with one marked occurrence of `p`
between consecutive chunks: `interTok p [c0, c1, ..., cn]` is
`c0 ++ p ++ c1 ++ p ++ ... ++ p ++ cn`. -/
def interTok (p : List Char) : List (List Char) → List Char
  | [] => []
  | [c] => c
  | c :: c2 :: cs => c ++ p ++ interTok p (c2 :: cs)

/-- The marked occurrences of `p` in `interTok p chunks` are exactly the
occurrences the replace scan meets: no match of `p` starts inside a chunk
(against the remainder of the string), and the last chunk contains no
occurrence at all. This is what fails for occurrences formed at a removal
junction, which CPython's resuming scan does not see. -/
def cleanChunks (p : List Char) : List (List Char) → Bool
  | [] => true
  | [c] => !containsSub p c
  | c :: c2 :: cs =>
    (List.range c.length).all
      (fun i => !(p.isPrefixOf ((c.drop i) ++ p ++ interTok p (c2 :: cs)))) &&
    cleanChunks p (c2 :: cs)

/-- A replace pass removes exactly the marked occurrences: on a string of
the form `c0 ++ p ++ c1 ++ ... ++ p ++ cn` whose only scan-visible
occurrences of `p` are the markers, `pyReplace` yields
`c0 ++ c1 ++ ... ++ cn`. -/
theorem pyReplace_chunks (p : List Char) (hp : p ≠ []) :
    ∀ chunks : List (List Char), cleanChunks p chunks = true →
      pyReplace p (interTok p chunks) = chunks.flatten := by
  intro chunks
  induction chunks with
  | nil => intro _; rfl
  | cons c cs ih =>
    intro h
    cases cs with
    | nil =>
      simp only [cleanChunks, Bool.not_eq_true'] at h
      show pyReplace p c = c ++ [].flatten
      rw [pyReplace_of_not_containsSub p c h]
      simp
    | cons c2 cs2 =>
      simp only [cleanChunks, Bool.and_eq_true] at h
      obtain ⟨h1, h2⟩ := h
      have hscan : ∀ i, i < c.length →
          p.isPrefixOf ((c.drop i) ++ p ++ interTok p (c2 :: cs2)) = false := by
        intro i hi
        have := List.all_eq_true.mp h1 i (List.mem_range.mpr hi)
        simpa using this
      show pyReplace p (c ++ p ++ interTok p (c2 :: cs2)) = c ++ (c2 :: cs2).flatten
      rw [pyReplace_step p _ hp c hscan, ih h2]

/-- Counterexample to claim C6 as stated: the input " po podd" contains
the literal space-prefixed sequence " pod" (at index 3), yet after the
whole removal stage — and hence before spaces are replaced with hyphens —
the string still contains " pod": removing the occurrence at index 3
forms a new " pod" at the junction (" po" ++ "d"), and CPython's single
resuming pass does not remove it, so normalization yields "-pod". -/
theorem C6_counterexample :
    containsSub " pod".data (" po podd".data.map Char.toLower) = true ∧
    containsSub " pod".data
      (pyReplace " deployment".data (pyReplace " pod".data
        (pyReplace " service".data (pyReplace " svc".data
          (" po podd".data.map Char.toLower))))) = true ∧
    normalize_resource_name " po podd" = "-pod" :=
  ⟨by decide, by decide, by decide⟩

/-- Claim C6 (amended): in resource-name normalization, all scan-visible
occurrences of the space-prefixed type words — any number of them, of any
mix of the four words, in inputs of any case — are removed before spaces
are replaced with hyphens and characters outside `[a-z0-9-]` are
stripped; only an occurrence formed at the junction of a removal in the
same pass survives. Stated via per-pass decompositions: if the lowercased
input splits into chunks `v1` around its " svc" occurrences (all clean),
the " svc"-free residue splits into chunks `v2` around its " service"
occurrences, and so on through " pod" and " deployment", then the string
reaching hyphenation is exactly the residue `v4.flatten` with every marked
occurrence deleted, and the output is that residue hyphenated, filtered
and stripped. In particular
`normalize_resource_name "my web service" = "my-web"` and
`normalize_resource_name "My Web Service" = "my-web"`. -/
theorem C6_clean_occurrences_removed_before_hyphenation :
    normalize_resource_name "my web service" = "my-web" ∧
    normalize_resource_name "My Web Service" = "my-web" ∧
    ∀ (L : List Char) (v1 v2 v3 v4 : List (List Char)),
      L.map Char.toLower = interTok " svc".data v1 →
      cleanChunks " svc".data v1 = true →
      v1.flatten = interTok " service".data v2 →
      cleanChunks " service".data v2 = true →
      v2.flatten = interTok " pod".data v3 →
      cleanChunks " pod".data v3 = true →
      v3.flatten = interTok " deployment".data v4 →
      cleanChunks " deployment".data v4 = true →
      normalize_resource_name ⟨L⟩ =
        ⟨pyStrip ((v4.flatten.map (fun c => if c = ' ' then '-' else c)).filter
          (fun c => isLowerAlnum c || c = '-'))⟩ := by
  refine ⟨by decide, by decide, ?_⟩
  intro L v1 v2 v3 v4 h1 hc1 h2 hc2 h3 hc3 h4 hc4
  show (String.mk (pyStrip (((pyReplace " deployment".data (pyReplace " pod".data
      (pyReplace " service".data (pyReplace " svc".data (L.map Char.toLower))))).map
      (fun c => if c = ' ' then '-' else c)).filter
      (fun c => isLowerAlnum c || c = '-')))) = _
  rw [h1, pyReplace_chunks " svc".data (by decide) v1 hc1,
    h2, pyReplace_chunks " service".data (by decide) v2 hc2,
    h3, pyReplace_chunks " pod".data (by decide) v3 hc3,
    h4, pyReplace_chunks " deployment".data (by decide) v4 hc4]

/-- Witness for the amended C6: an uppercase input with one " Service"
occurrence, and an input with two " pod" occurrences, each decomposed
into concrete chunks with every side condition checked by evaluation. -/
theorem C6_witness :
    normalize_resource_name "My Web Service" = "my-web" ∧
    normalize_resource_name "db pod and web pod" = "db-and-web" :=
  ⟨C6_clean_occurrences_removed_before_hyphenation.2.2
     "My Web Service".data ["my web service".data]
     ["my web".data, []] ["my web".data] ["my web".data]
     (by decide) (by decide) (by decide) (by decide) (by decide) (by decide)
     (by decide) (by decide),
   C6_clean_occurrences_removed_before_hyphenation.2.2
     "db pod and web pod".data ["db pod and web pod".data]
     ["db pod and web pod".data] ["db".data, " and web".data, []]
     ["db and web".data]
     (by decide) (by decide) (by decide) (by decide) (by decide) (by decide)
     (by decide) (by decide)⟩

/-- Did the call raise `ApiException` (any status)? -/
def isApiException {α : Type} : Except PyErr α → Bool
  | .error (.apiError _ _) => true
  | _ => false

/-- Did the call raise `ApiException` with status 404? -/
def is404 {α : Type} : Except PyErr α → Bool
  | .error (.apiError 404 _) => true
  | _ => false

theorem isApiException_of_is404 {α : Type} (e : Except PyErr α)
    (h : is404 e = true) : isApiException e = true := by
  cases e with
  | ok _ => simp [is404] at h
  | error err =>
    cases err with
    | apiError st r => rfl
    | valueError => simp [is404] at h
    | indexError => simp [is404] at h

theorem find_loop_cons {α : Type} (m : Option String → String → Except PyErr α)
    (name : Option String) (ns : String) (rest : List String) :
    find_loop m (ns :: rest) name =
      match m name ns with
      | .ok r => .ok (some r, some ns)
      | .error (.apiError _ _) => find_loop m rest name
      | .error e => .error e := rfl

/-- A prefix of namespaces in which every lookup raises `ApiException`
(404 or not) is skipped and the scan continues into the remaining
namespaces. -/
theorem find_loop_skip {α : Type} (m : Option String → String → Except PyErr α)
    (name : Option String) :
    ∀ (pre post : List String),
      (∀ ns ∈ pre, isApiException (m name ns) = true) →
      find_loop m (pre ++ post) name = find_loop m post name := by
  intro pre
  induction pre with
  | nil => intro post _; rfl
  | cons ns rest ih =>
    intro post h
    have hn := h ns (List.mem_cons_self _ _)
    show find_loop m (ns :: (rest ++ post)) name = find_loop m post name
    rw [find_loop_cons]
    cases hm : m name ns with
    | ok r => rw [hm] at hn; simp [isApiException] at hn
    | error e =>
      cases e with
      | apiError st reason =>
        show find_loop m (rest ++ post) name = find_loop m post name
        exact ih post (fun x hx => h x (List.mem_cons_of_mem _ hx))
      | valueError => rw [hm] at hn; simp [isApiException] at hn
      | indexError => rw [hm] at hn; simp [isApiException] at hn

/-- Claim C1 (amended): in the all-namespace search, every per-namespace
lookup failure that is an `ApiException` — whether its status is 404 or
not (non-404 statuses are merely logged) — is swallowed and iteration
continues with the next namespace; exhausting the namespaces yields the
NotFound result `(none, none)` rather than a surfaced failure. -/
theorem C1_find_swallows_all_api_errors {α : Type} (api : KubeApi)
    (m : Option String → String → Except PyErr α) (name : Option String)
    (pre post : List String)
    (hns : api.list_namespace = .ok (pre ++ post))
    (herr : ∀ ns ∈ pre, isApiException (m name ns) = true) :
    find_resource_in_all_namespaces api m name = find_loop m post name ∧
    (post = [] → find_resource_in_all_namespaces api m name = .ok (none, none)) := by
  have hmain : find_resource_in_all_namespaces api m name = find_loop m post name := by
    unfold find_resource_in_all_namespaces
    rw [hns]
    show find_loop m (pre ++ post) name = find_loop m post name
    exact find_loop_skip m name pre post herr
  exact ⟨hmain, fun hpost => by rw [hmain, hpost]; rfl⟩

/-- A control plane on which every read misses: two namespaces, no
resources, reads fail with 404 (or `ValueError` when the name is `None`,
as the python client does). -/
def sampleApi : KubeApi :=
  { list_namespace := .ok ["default", "kube-system"]
    list_pod_for_all_namespaces := .ok []
    list_namespaced_pod := fun _ => .ok []
    list_deployment_for_all_namespaces := .ok []
    list_namespaced_deployment := fun _ => .ok []
    list_service_for_all_namespaces := .ok []
    list_namespaced_service := fun _ => .ok []
    list_node := .ok ["node-a", "node-b", "node-c"]
    read_namespaced_pod := fun name _ =>
      if name = none then .error .valueError else .error (.apiError 404 "Not Found")
    read_namespaced_deployment := fun name _ =>
      if name = none then .error .valueError else .error (.apiError 404 "Not Found")
    read_namespaced_service := fun name _ =>
      if name = none then .error .valueError else .error (.apiError 404 "Not Found")
    read_namespaced_pod_log := fun _ _ => .error (.apiError 404 "Not Found")
    read_persistent_volume := fun _ => .error (.apiError 404 "Not Found") }

/-- A lookup that fails with a 500 in namespace "bad1"/"bad2" and
succeeds in namespace "good". -/
def lookup500 : Option String → String → Except PyErr Nat :=
  fun _ ns => if ns = "good" then .ok 7 else .error (.apiError 500 "Internal Server Error")

/-- A control plane listing a failing namespace before a good one. -/
def apiC1 : KubeApi := { sampleApi with list_namespace := .ok ["bad1", "good"] }

/-- Counterexample to claim C1 as stated: the lookup in the first
namespace fails with control-plane status 500 (not 404), yet the search
does not abort and no locate failure is surfaced — iteration continues
and the search returns the resource found in the second namespace. -/
theorem C1_counterexample :
    lookup500 (some "web") "bad1" = .error (.apiError 500 "Internal Server Error") ∧
    find_resource_in_all_namespaces apiC1 lookup500 (some "web") =
      .ok (some 7, some "good") := ⟨rfl, rfl⟩

/-- A control plane with two failing namespaces before a good one, for
the C1 witness. -/
def apiC1w : KubeApi := { sampleApi with list_namespace := .ok ["bad1", "bad2", "good"] }

/-- Witness for the amended C1 at a concrete control plane: the two
namespaces failing with status 500 are skipped and the scan continues
into the remaining namespace list. -/
theorem C1_witness :
    find_resource_in_all_namespaces apiC1w lookup500 (some "web") =
      find_loop lookup500 ["good"] (some "web") :=
  (C1_find_swallows_all_api_errors apiC1w lookup500 (some "web")
    ["bad1", "bad2"] ["good"] rfl (by decide)).1

/-- Claim C7: CountResources for kind node returns exactly the number of
node objects in the control-plane node list, rendered by `str(count)`
(decimal, no extra formatting); for every kind outside
{pod, deployment, node, service} it returns an explanatory sentence,
not an error. -/
theorem C7_count_resources_nodes_and_unsupported :
    (∀ (api : KubeApi) (params : Params) (nodes : List String),
      slookup params "resource_type" = some "node" →
      api.list_node = .ok nodes →
      handle_count_resources api params = .ok (Nat.repr nodes.length)) ∧
    (∀ (api : KubeApi) (params : Params),
      slookup params "resource_type" ∉
        [some "pod", some "deployment", some "node", some "service"] →
      handle_count_resources api params =
        .ok ("Resource type '" ++ optStr (slookup params "resource_type") ++
          "' is not supported for counting.")) := by
  constructor
  · intro api params nodes hrt hnodes
    unfold handle_count_resources
    rw [hrt]
    simp [hnodes]
  · intro api params hrt
    unfold handle_count_resources
    simp only [List.mem_cons, List.mem_singleton, not_or] at hrt
    rw [if_neg (by simp [hrt.1]), if_neg (by simp [hrt.2.1]),
      if_neg (by simp [hrt.2.2.1]), if_neg (by simp [hrt.2.2.2.1])]
    rfl

/-- Witness for C7: three nodes are counted as "3"; kind "configmap"
draws the explanatory sentence. -/
theorem C7_witness :
    handle_count_resources sampleApi [("resource_type", "node")] = .ok "3" ∧
    handle_count_resources sampleApi [("resource_type", "configmap")] =
      .ok "Resource type 'configmap' is not supported for counting." :=
  ⟨C7_count_resources_nodes_and_unsupported.1 sampleApi [("resource_type", "node")]
    ["node-a", "node-b", "node-c"] rfl rfl,
   C7_count_resources_nodes_and_unsupported.2 sampleApi [("resource_type", "configmap")]
    (by decide)⟩

/-- Claim C8: GetStatus for kind pod with a name matching no pod in any
namespace (every per-namespace read answers 404, the search covering the
whole namespace list in listing order) returns the "not found" Answer,
not a fault. -/
theorem C8_get_status_pod_not_found (api : KubeApi) (params : Params)
    (name : String) (nss : List String)
    (hrt : slookup params "resource_type" = some "pod")
    (hrn : slookup params "resource_name" = some name)
    (hns : api.list_namespace = .ok nss)
    (h404 : ∀ ns ∈ nss, is404 (api.read_namespaced_pod (some name) ns) = true) :
    handle_get_status api params =
      .ok ("Pod '" ++ name ++ "' not found in any namespace.") := by
  have hfind : find_resource_in_all_namespaces api api.read_namespaced_pod (some name) =
      .ok (none, none) := by
    refine (C1_find_swallows_all_api_errors api api.read_namespaced_pod (some name)
      nss [] (by rw [List.append_nil]; exact hns) ?_).2 rfl
    intro ns hmem
    exact isApiException_of_is404 _ (h404 ns hmem)
  unfold handle_get_status
  rw [hrt, hrn]
  simp only [hfind]
  rfl

/-- Witness for C8: no pod named "web" exists anywhere in `sampleApi`. -/
theorem C8_witness :
    handle_get_status sampleApi [("resource_type", "pod"), ("resource_name", "web")] =
      .ok "Pod 'web' not found in any namespace." :=
  C8_get_status_pod_not_found sampleApi _ "web" ["default", "kube-system"]
    rfl rfl rfl (by decide)

theorem except_bind_ok {ε α β : Type} (x : α) (f : α → Except ε β) :
    (Except.ok x : Except ε α) >>= f = f x := rfl

theorem pyGet0_cons {α : Type} (x : α) (xs : List α) : pyGet0 (x :: xs) = .ok x := rfl

/-- Claim C9: GetResourceDetail for kind pod, detail environment_variable
and a variable name absent from the located pod's first container
returns the "not found" Answer, raising nothing; and when resource_name
or detail is missing/empty the handler returns the sentence that both
are required. -/
theorem C9_get_resource_detail_env_missing :
    (∀ (ctx : Ctx) (params : Params),
      pyTruthy (slookup params "resource_name") = false ∨
        pyTruthy (slookup params "detail") = false →
      handle_get_resource_detail ctx params =
        .ok "Resource name and detail are required for getting resource details.") ∧
    (∀ (ctx : Ctx) (params : Params) (name v : String) (pod : Pod) (ns : String)
      (c0 : Container) (rest : List Container),
      slookup params "resource_type" = some "pod" →
      slookup params "resource_name" = some name →
      name.isEmpty = false →
      slookup params "detail" = some "environment_variable" →
      pyOr (slookup params "variable_name") (slookup params "specific_detail") = some v →
      v.isEmpty = false →
      find_resource_in_all_namespaces ctx.api ctx.api.read_namespaced_pod (some name) =
        .ok (some pod, some ns) →
      pod.spec.containers = c0 :: rest →
      (∀ e ∈ c0.env.getD [], e.name ≠ v) →
      handle_get_resource_detail ctx params =
        .ok ("Environment variable '" ++ v ++ "' not found in pod '" ++ name ++ "'.")) := by
  constructor
  · intro ctx params h
    unfold handle_get_resource_detail
    rw [if_pos (by rcases h with h | h <;> simp [h])]
  · intro ctx params name v pod ns c0 rest hrt hrn hname hdet hvar hv hfind hcont henv
    have hvtruthy : pyTruthy (some v) = true := by simp [pyTruthy, hv]
    have hfindq : (c0.env.getD []).find? (fun e => some e.name = some v) = none := by
      rw [List.find?_eq_none]
      intro x hx
      simp [henv x hx]
    unfold handle_get_resource_detail
    rw [hrt, hrn, hdet, hvar]
    rw [if_neg (by simp [pyTruthy, hname]; decide)]
    unfold get_resource_detail_body
    simp only [hfind, except_bind_ok, hvtruthy, hcont, pyGet0_cons, hfindq]
    rfl

/-- A pod named "web" with one container and a single environment
variable `OTHER_VAR`. -/
def samplePod : Pod :=
  { metadata_name := "web"
    status := { phase := "Running" }
    spec := { containers := [{ env := some [{ name := "OTHER_VAR", value := some "1" }]
                               volume_mounts := none
                               readiness_probe := none
                               ports := none }] } }

/-- A control plane with one namespace holding `samplePod`. -/
def apiPod : KubeApi :=
  { sampleApi with
    list_namespace := .ok ["default"]
    read_namespaced_pod := fun name ns =>
      if name = some "web" ∧ ns = "default" then .ok samplePod
      else if name = none then .error .valueError
      else .error (.apiError 404 "Not Found") }

/-- Context over `apiPod` with a tagged fallback synthesizer. -/
def sampleCtx : Ctx :=
  { api := apiPod
    fb := fun q => "FALLBACK:" ++ q
    dump_pod := fun _ => "pod dump"
    dump_deployment := fun _ => "deployment dump"
    dump_service := fun _ => "service dump" }

/-- Witness for C9: missing detail draws the required-fields sentence;
asking for `DB_HOST` on a pod that only has `OTHER_VAR` draws the
variable-not-found sentence. -/
theorem C9_witness :
    handle_get_resource_detail sampleCtx [("resource_type", "pod")] =
      .ok "Resource name and detail are required for getting resource details." ∧
    handle_get_resource_detail sampleCtx
      [("resource_type", "pod"), ("resource_name", "web"),
       ("detail", "environment_variable"), ("variable_name", "DB_HOST")] =
      .ok "Environment variable 'DB_HOST' not found in pod 'web'." :=
  ⟨C9_get_resource_detail_env_missing.1 sampleCtx [("resource_type", "pod")] (Or.inl rfl),
   C9_get_resource_detail_env_missing.2 sampleCtx
     [("resource_type", "pod"), ("resource_name", "web"),
      ("detail", "environment_variable"), ("variable_name", "DB_HOST")]
     "web" "DB_HOST" samplePod "default" _ []
     rfl rfl rfl rfl rfl rfl rfl rfl (by decide)⟩

/-- Context over the empty control plane with a tagged fallback. -/
def ctxFB : Ctx :=
  { api := sampleApi
    fb := fun q => "FALLBACK:" ++ q
    dump_pod := fun _ => ""
    dump_deployment := fun _ => ""
    dump_service := fun _ => "" }

/-- Counterexample to claim C2 as stated: the raw action "foobar"
normalizes to itself, matches none of the six handler keys, and is not
"unknown" with empty parameters (the parameters are nonempty), yet the
dispatcher answers with the fixed sentence "I did not understand the
action required." — not with the Fallback Synthesizer, whose every
answer under `ctxFB` carries the "FALLBACK:" tag. -/
theorem C2_counterexample :
    perform_kubernetes_action ctxFB
      { action := some "foobar", parameters := some [("resource_type", "pod")],
        query := none } =
      "I did not understand the action required." ∧
    handle_unknown_action ctxFB [("query", "Unknown query")] = "FALLBACK:Unknown query" ∧
    "I did not understand the action required." ≠ "FALLBACK:Unknown query" :=
  ⟨rfl, rfl, by decide⟩

theorem normalize_action_type_ne_unknown (s : String) (hs : s ≠ "unknown") :
    normalize_action_type s ≠ "unknown" := by
  unfold normalize_action_type
  cases hlk : slookup action_mapping s with
  | none => simpa using hs
  | some v =>
    have hv := action_values_ne_unknown (s, v) (slookup_mem _ _ _ hlk)
    simpa using hv

/-- The six canonical handler keys of the dispatch table. -/
def sixHandlerKeys : List String :=
  ["count_resources", "get_status", "list_resources", "get_logs",
   "describe_resource", "get_resource_detail"]

/-- Claim C2 (amended): a raw intent whose action normalizes to none of
the six handler keys routes to the Fallback Synthesizer exactly when the
raw action is "unknown" or the parameters are absent/empty (the
short-circuit); with nonempty parameters and an unmatched non-"unknown"
action, the dispatcher instead answers the fixed sentence "I did not
understand the action required.". -/
theorem C2_unmatched_action_dispatch (ctx : Ctx) (a : RawIntent)
    (hmiss : ∀ s, a.action = some s → normalize_action_type s ∉ sixHandlerKeys) :
    perform_kubernetes_action ctx a =
      if a.action = some "unknown" ∨ paramsTruthy a.parameters = false then
        ctx.fb (a.query.getD "Unknown query")
      else "I did not understand the action required." := by
  by_cases hcond : a.action = some "unknown" ∨ paramsTruthy a.parameters = false
  · rw [if_pos hcond]
    unfold perform_kubernetes_action perform_body
    rw [if_pos hcond]
    rfl
  · rw [if_neg hcond]
    have hunk : ¬ a.action = some "unknown" := fun h => hcond (Or.inl h)
    unfold perform_kubernetes_action perform_body
    rw [if_neg hcond]
    cases ha : a.action with
    | none => rfl
    | some s =>
      have hs : s ≠ "unknown" := by
        intro h
        exact hunk (by rw [ha, h])
      have hnk := normalize_action_type_ne_unknown s hs
      have hms := hmiss s ha
      have hmissKey : ∀ k ∈ sixHandlerKeys, ¬ (k = normalize_action_type s) :=
        fun k hk he => hms (he ▸ hk)
      have hlook : slookup (action_handlers ctx) (normalize_action_type s) = none := by
        simp only [action_handlers, slookup]
        rw [if_neg (hmissKey "count_resources" (by decide)),
          if_neg (hmissKey "get_status" (by decide)),
          if_neg (hmissKey "list_resources" (by decide)),
          if_neg (hmissKey "get_logs" (by decide)),
          if_neg (hmissKey "describe_resource" (by decide)),
          if_neg (hmissKey "get_resource_detail" (by decide)),
          if_neg (fun he => hnk he.symm)]
      simp only [Option.map_some', hlook]

/-- Witness for the amended C2: "foobar" with nonempty parameters draws
the fixed sentence; "weird_action" with absent parameters routes to the
fallback, which answers with its tag and the carried query. -/
theorem C2_witness :
    perform_kubernetes_action ctxFB
      { action := some "foobar", parameters := some [("a", "b")], query := none } =
      "I did not understand the action required." ∧
    perform_kubernetes_action ctxFB
      { action := some "weird_action", parameters := none, query := some "orig query" } =
      "FALLBACK:orig query" :=
  ⟨C2_unmatched_action_dispatch ctxFB _
     (by intro s hs; injection hs with h; subst h; decide),
   C2_unmatched_action_dispatch ctxFB _
     (by intro s hs; injection hs with h; subst h; decide)⟩

/-- The query interpreter's output for the C3 scenario: `interpret_query`
returns exactly the parsed JSON object {"action":"unknown","parameters":{}}
— per its contract it has only the keys `action` and `parameters`, so the
intent dict carries no "query" key. -/
def interp_unknown : String → RawIntent :=
  fun _ => { action := some "unknown", parameters := some [], query := none }

/-- Context whose fallback synthesizer echoes the query it receives. -/
def idCtx : Ctx :=
  { api := sampleApi
    fb := fun q => q
    dump_pod := fun _ => ""
    dump_deployment := fun _ => ""
    dump_service := fun _ => "" }

/-- Claim C3, evaluated on the code at the failing input: for the query
"what's trending in my cluster" interpreted as
{"action":"unknown","parameters":{}}, the pipeline does route to the
Fallback Synthesizer, but the query it carries is the placeholder
"Unknown query" (because `interpret_query` never attaches the original
text to the intent dict that `perform_kubernetes_action` reads "query"
from), not the user's original free text. -/
theorem C3_fallback_gets_placeholder_not_original_query :
    (∀ ctx : Ctx,
      query_pipeline ctx interp_unknown "what's trending in my cluster" =
        ctx.fb "Unknown query") ∧
    query_pipeline idCtx interp_unknown "what's trending in my cluster" =
      "Unknown query" ∧
    "Unknown query" ≠ "what's trending in my cluster" :=
  ⟨fun _ => rfl, rfl, by decide⟩

/-- Claim C4: for every raw intent, `perform_kubernetes_action` returns a
string Answer: either the try-block body succeeded with exactly that
answer, or the body raised and the answer is one of the two fixed
explanatory sentences (ApiException vs. any other exception). No
exception escapes the dispatcher boundary. -/
theorem C4_perform_returns_answer_never_raises (ctx : Ctx) (a : RawIntent) :
    perform_body ctx a = .ok (perform_kubernetes_action ctx a) ∨
    perform_kubernetes_action ctx a =
      "An error occurred while communicating with the Kubernetes API." ∨
    perform_kubernetes_action ctx a =
      "An error occurred while performing the Kubernetes action." := by
  cases h : perform_body ctx a with
  | ok s =>
    left
    unfold perform_kubernetes_action
    rw [h]
  | error e =>
    right
    unfold perform_kubernetes_action
    rw [h]
    cases e with
    | apiError st r => left; rfl
    | valueError => right; rfl
    | indexError => right; rfl

end K8sAgent
